import Mathlib

/-!
Shallow embedding of the LivePresenter coordination core:
the page-state store (`StateManager` from `modules/state-manager.js`),
the navigation controller (`NavigationController`), the ElevenLabs
client-tool adapter (`registerClientTools`), and the transcript layer
(`TranscriptManager`).

JavaScript values are modelled explicitly where their dynamic typing
matters: a page-number argument is either an integer or a non-integer
value (`Number.isInteger` fails on the latter); message fields are
strings, truthy-or-falsy non-strings, or absent; listener callbacks are
identified by numeric ids (standing for JS reference identity), with a
behaviour function saying which callbacks throw when invoked.
-/

namespace LivePresenter

/-- A JavaScript value used as a page number: an integer, or anything
else (non-integer number, NaN, string, undefined, ...) on which
`Number.isInteger` returns false. -/
inductive JSNum where
  | int (n : Int)
  | nonInt
deriving Repr, DecidableEq

/-- The payload of a `pageChanged` event, as built in
`StateManager.setCurrentPage`. -/
structure ChangeEvent where
  currentPage : Int
  previousPage : Int
  totalPages : Int
deriving Repr, DecidableEq

/-- The `_listeners` map: a JS `Map` from event type to a `Set` of
callbacks, modelled as an insertion-ordered association list of
insertion-ordered duplicate-free lists of callback ids. -/
abbrev Listeners := List (String × List Nat)

/-- `Map.get`: first (and only) entry with the given key. -/
def lookupL : Listeners → String → Option (List Nat)
  | [], _ => none
  | (k, v) :: rest, ty => if k = ty then some v else lookupL rest ty

/-- The listener list registered for an event type (empty if none). -/
def listenersFor (L : Listeners) (ty : String) : List Nat :=
  (lookupL L ty).getD []

/-- `Set.add`: appends the callback unless already present (JS sets are
insertion-ordered and deduplicate by reference identity). -/
def addToSet (s : List Nat) (id : Nat) : List Nat :=
  if id ∈ s then s else s ++ [id]

/-- `StateManager.addEventListener`: create the `Set` for a new event
type, else `Set.add` into the existing one. (The JS code first throws if
the callback is not a function; ids always denote functions here.) -/
def addListener : Listeners → String → Nat → Listeners
  | [], ty, id => [(ty, [id])]
  | (k, v) :: rest, ty, id =>
    if k = ty then (k, addToSet v id) :: rest
    else (k, v) :: addListener rest ty id

/-- `StateManager.removeEventListener`: `Set.delete` on the entry for the
event type, if present. -/
def removeListener : Listeners → String → Nat → Listeners
  | [], _, _ => []
  | (k, v) :: rest, ty, id =>
    if k = ty then (k, v.filter (fun x => x ≠ id)) :: rest
    else (k, v) :: removeListener rest ty id

/-- The `StateManager` instance state: `_totalPages`, `_currentPage`,
`_listeners`. -/
structure StateManager where
  totalPages : Int
  currentPage : Int
  listeners : Listeners
deriving Repr, DecidableEq

/-- `StateManager` constructor: throws (`none`) when
`!totalPages || totalPages < 1`; a numeric `totalPages` is falsy exactly
when it is `0`. Otherwise starts at page 1 with no listeners. -/
def StateManager.make (totalPages : Int) : Option StateManager :=
  if totalPages = 0 ∨ totalPages < 1 then none
  else some ⟨totalPages, 1, []⟩

/-- The `forEach` loop of `StateManager._emit`: every callback in order
is invoked with the event data; a callback that throws (per `beh`) has
its exception caught and logged, and iteration continues. Returns the
invocations made (in order) and the ids whose exception was logged. -/
def emitAll : List Nat → ChangeEvent → (Nat → Bool) → List (Nat × ChangeEvent) × List Nat
  | [], _, _ => ([], [])
  | id :: rest, ev, beh =>
    let r := emitAll rest ev beh
    ((id, ev) :: r.1, if beh id then id :: r.2 else r.2)

/-- `StateManager._emit`: look up the listener set for the event type and
run every callback under try/catch. -/
def StateManager.emit (st : StateManager) (eventType : String) (ev : ChangeEvent)
    (beh : Nat → Bool) : List (Nat × ChangeEvent) × List Nat :=
  match lookupL st.listeners eventType with
  | none => ([], [])
  | some ls => emitAll ls ev beh

/-- Observable outcome of one `setCurrentPage` call: the returned
boolean, the post-call store state, the `_emit` calls made (event type
and payload), the listener invocations, and the logged listener
exceptions. -/
structure SetPageResult where
  ok : Bool
  st : StateManager
  emitted : List (String × ChangeEvent)
  invocations : List (Nat × ChangeEvent)
  logged : List Nat
deriving Repr, DecidableEq

/-- `StateManager.setCurrentPage`: rejects non-integers and out-of-range
numbers, treats the current page as a no-op returning false, otherwise
updates `_currentPage` first and then emits one `pageChanged` event whose
payload is read from the already-updated state. -/
def StateManager.setCurrentPage (st : StateManager) (pageNum : JSNum)
    (beh : Nat → Bool) : SetPageResult :=
  match pageNum with
  | .nonInt => ⟨false, st, [], [], []⟩
  | .int n =>
    if n < 1 ∨ n > st.totalPages then ⟨false, st, [], [], []⟩
    else if n = st.currentPage then ⟨false, st, [], [], []⟩
    else
      let previousPage := st.currentPage
      let st' : StateManager := { st with currentPage := n }
      let ev : ChangeEvent :=
        { currentPage := st'.currentPage
          previousPage := previousPage
          totalPages := st'.totalPages }
      let run := st'.emit "pageChanged" ev beh
      ⟨true, st', [("pageChanged", ev)], run.1, run.2⟩

/-- `StateManager.canGoNext`. -/
def StateManager.canGoNext (st : StateManager) : Bool :=
  st.currentPage < st.totalPages

/-- `StateManager.canGoPrevious`. -/
def StateManager.canGoPrevious (st : StateManager) : Bool :=
  st.currentPage > 1

/-- Store states reachable from construction through the public mutators:
`setCurrentPage` (any argument), `addEventListener`,
`removeEventListener`. -/
inductive Reachable : StateManager → Prop where
  | init : ∀ tp st, StateManager.make tp = some st → Reachable st
  | step : ∀ st p beh, Reachable st →
      Reachable (StateManager.setCurrentPage st p beh).st
  | addL : ∀ st ty c, Reachable st →
      Reachable { st with listeners := addListener st.listeners ty c }
  | removeL : ∀ st ty c, Reachable st →
      Reachable { st with listeners := removeListener st.listeners ty c }

/-! Navigation controller (`NavigationController` in `navigation.js`):
`goToPage` delegates to the store's `setCurrentPage` and returns its
boolean result without re-validating. -/

/-- `NavigationController.goToPage`: `const changed = setCurrentPage(n);
if (!changed) return false; return true;`. -/
def navGoToPage (st : StateManager) (pageNum : JSNum) (beh : Nat → Bool) :
    Bool × SetPageResult :=
  let r := st.setCurrentPage pageNum beh
  if r.ok = false then (false, r) else (true, r)

/-! Client-tool adapter (`registerClientTools` in `client-tools.js`). -/

/-- A JS primitive handed to the tool as a page number, classified by
what `parseInt` does with it: an integer number, a string that parses to
an integer, or anything non-numeric (`parseInt` gives `NaN`). -/
inductive JSPrim where
  | int (n : Int)
  | intStr (n : Int)
  | nonNumeric
deriving Repr, DecidableEq

/-- The argument of the `goToPage` tool: either a bare value, or an
object carrying a `pageNumber` field
(`typeof params === "object" ? params.pageNumber : params`). -/
inductive ToolInput where
  | bare (v : JSPrim)
  | obj (pageNumber : JSPrim)
deriving Repr, DecidableEq

/-- Unwrap the `pageNumber` field from an object argument. -/
def unwrapParam : ToolInput → JSPrim
  | .bare v => v
  | .obj v => v

/-- `parseInt` on the unwrapped value; `none` models `NaN`. -/
def jsParseInt : JSPrim → Option Int
  | .int n => some n
  | .intStr n => some n
  | .nonNumeric => none

/-- The result object of the `goToPage` tool: every branch carries
`success`, `message`, `currentPage`, `totalPages`. -/
structure ToolResult where
  success : Bool
  message : String
  currentPage : Int
  totalPages : Int
deriving Repr, DecidableEq

/-- The `goToPage` client tool: unwraps the argument, `parseInt`s it,
range-checks against the total, then delegates to
`navigationController.goToPage` and reports. Returns the result object,
the post-call store state, and the `pageChanged` emissions made. -/
def clientGoToPage (st : StateManager) (params : ToolInput) (beh : Nat → Bool) :
    ToolResult × StateManager × List (String × ChangeEvent) :=
  let pageNum := unwrapParam params
  let total := st.totalPages
  match jsParseInt pageNum with
  | none =>
    (⟨false, "Invalid page number. Must be between 1 and " ++ toString total,
      st.currentPage, total⟩, st, [])
  | some pageNumber =>
    if pageNumber < 1 ∨ pageNumber > total then
      (⟨false, "Invalid page number. Must be between 1 and " ++ toString total,
        st.currentPage, total⟩, st, [])
    else
      let run := navGoToPage st (.int pageNumber) beh
      if run.1 then
        (⟨true, "Jumped to page " ++ toString pageNumber ++ " of " ++ toString total,
          pageNumber, total⟩, run.2.st, run.2.emitted)
      else
        (⟨false, "Failed to navigate to page " ++ toString pageNumber,
          run.2.st.currentPage, total⟩, run.2.st, run.2.emitted)

/-! Transcript layer (`TranscriptManager` in `transcript-manager.js`). -/

/-- A field of an inbound message object: a string, a present non-string
value (with its truthiness), or absent (`undefined`). -/
inductive JField where
  | str (s : String)
  | nonStr (truthy : Bool)
  | absent
deriving Repr, DecidableEq

/-- An inbound ElevenLabs message object. `source`, `type`, `role` model
fields whose value, when a string, is compared against literals (a
present non-string compares unequal, like an absent one). The numeric
timestamp fields use `none` for absent-or-falsy. -/
structure VoiceMsg where
  source : Option String
  type : Option String
  role : Option String
  message : JField
  text : JField
  content : JField
  transcript : JField
  timestamp : Option Nat
  time : Option Nat
deriving Repr, DecidableEq

/-- An inbound message payload: an object, or a bare string. -/
inductive Payload where
  | obj (m : VoiceMsg)
  | str (s : String)
deriving Repr, DecidableEq

/-- One guard of `_extractContent`:
`message.f && typeof message.f === "string"` — the field yields content
exactly when it is a truthy (hence non-empty) string. -/
def fieldContent : JField → Option String
  | .str s => if s = "" then none else some s
  | .nonStr _ => none
  | .absent => none

/-- `TranscriptManager._extractContent`: first of the fields `message`,
`text`, `content`, `transcript` that is a non-empty string; else the
payload itself when it is a string; else `null`. -/
def extractContent : Payload → Option String
  | .obj m =>
    match fieldContent m.message with
    | some s => some s
    | none =>
      match fieldContent m.text with
      | some s => some s
      | none =>
        match fieldContent m.content with
        | some s => some s
        | none =>
          match fieldContent m.transcript with
          | some s => some s
          | none => none
  | .str s => some s

/-- `TranscriptManager._determineRole`: the cascade of guards from the
source, in order. A bare-string payload has none of the fields, so it
falls through to the default. -/
def determineRole : Payload → String
  | .str _ => "agent"
  | .obj m =>
    if m.source = some "user" ∨ m.type = some "user_transcript" then "user"
    else if m.source = some "ai" ∨ m.type = some "agent_response" then "agent"
    else if m.role = some "user" then "user"
    else if m.role = some "assistant" ∨ m.role = some "agent" then "agent"
    else "agent"

/-- `TranscriptManager._extractTimestamp`: field `timestamp` if truthy,
else field `time` if truthy, else the current time. -/
def extractTimestamp (message : Payload) (now : Nat) : Nat :=
  match message with
  | .str _ => now
  | .obj m =>
    match m.timestamp with
    | some t => t
    | none =>
      match m.time with
      | some t => t
      | none => now

/-- One transcript entry: role, content, timestamp. -/
structure Entry where
  role : String
  content : String
  timestamp : Nat
deriving Repr, DecidableEq

/-- The observable transcript state: the `_history` array and the
sequence of `chatInterface.addMessage` calls (the display). -/
structure TMState where
  history : List Entry
  display : List Entry
deriving Repr, DecidableEq

/-- JS truthiness of a payload: objects are truthy, the empty string is
falsy. -/
def payloadTruthy : Payload → Bool
  | .str s => s ≠ ""
  | .obj _ => true

/-- `TranscriptManager.handleVoiceMessage`: return early on a falsy
message; compute role, content, timestamp; drop the message when the
content is falsy (`null` or the empty string); otherwise append one
entry to the history and one to the display. -/
def handleVoiceMessage (tm : TMState) (message : Option Payload) (now : Nat) :
    TMState :=
  match message with
  | none => tm
  | some msg =>
    if payloadTruthy msg = false then tm
    else
      let role := determineRole msg
      let content := extractContent msg
      let ts := extractTimestamp msg now
      match content with
      | none => tm
      | some c =>
        if c = "" then tm
        else
          { history := tm.history ++ [⟨role, c, ts⟩]
            display := tm.display ++ [⟨role, c, ts⟩] }

/-- JS `String.prototype.trim`: strip leading and trailing whitespace.
Implemented over the character list so it evaluates inside proofs. -/
def jsTrim (s : String) : String :=
  ⟨((s.data.dropWhile Char.isWhitespace).reverse.dropWhile
      Char.isWhitespace).reverse⟩

/-- A JS value passed as the text argument of `sendTextMessage`: a
string, or any non-string value. -/
inductive JSText where
  | str (s : String)
  | nonString
deriving Repr, DecidableEq

/-- The bound ElevenLabs conversation object, reduced to the
capabilities `sendTextMessage` probes: which of the five send-method
names exist, and whether the chosen send throws (with the error
message). -/
structure Conversation where
  hasSendTextMessage : Bool
  hasSendMessage : Bool
  hasSend : Bool
  hasSendUserMessage : Bool
  hasSendText : Bool
  sendThrows : Bool
  errMsg : String
deriving Repr, DecidableEq

/-- `TranscriptManager.sendTextMessage`: no-op on non-string, falsy, or
whitespace-only input; otherwise append a user entry to history and
display, then attempt delivery — a missing session or missing send
method degrades to a system-role notice, a throwing send is caught and
reported as a system-role error entry. Returns the new transcript state
and the texts delivered to the session. -/
def sendTextMessage (tm : TMState) (conv : Option Conversation)
    (text : JSText) (now : Nat) : TMState × List String :=
  match text with
  | .nonString => (tm, [])
  | .str s =>
    if s = "" then (tm, [])
    else
      let trimmedText := jsTrim s
      if trimmedText = "" then (tm, [])
      else
        let tm1 : TMState :=
          { history := tm.history ++ [⟨"user", trimmedText, now⟩]
            display := tm.display ++ [⟨"user", trimmedText, now⟩] }
        match conv with
        | none =>
          ({ tm1 with
              display := tm1.display ++
                [⟨"system", "Voice conversation not connected", now⟩] }, [])
        | some c =>
          if c.hasSendTextMessage ∨ c.hasSendMessage ∨ c.hasSend ∨
              c.hasSendUserMessage ∨ c.hasSendText then
            if c.sendThrows then
              ({ tm1 with
                  display := tm1.display ++
                    [⟨"system", "Error sending message: " ++ c.errMsg, now⟩] },
               [])
            else (tm1, [trimmedText])
          else
            ({ tm1 with
                display := tm1.display ++
                  [⟨"system",
                    "Text input is for display only - voice conversation required for agent interaction",
                    now⟩] }, [])

/-! Spec-side definitions, written from the specification text alone, to
be compared with the source-derived definitions above (refinement
claims C5 and C6). -/

/-- The `source` field of a payload (a bare string has no fields). -/
def msgSource : Payload → Option String
  | .obj m => m.source
  | .str _ => none

/-- The `type` field of a payload. -/
def msgType : Payload → Option String
  | .obj m => m.type
  | .str _ => none

/-- The `role` field of a payload. -/
def msgRole : Payload → Option String
  | .obj m => m.role
  | .str _ => none

/-- Spec text, role inference, first match wins: `source == "user"` or
`type == "user_transcript"` gives user; `source == "ai"` or
`type == "agent_response"` gives agent; `role == "user"` gives user;
`role` in `{assistant, agent}` gives agent; otherwise agent. -/
def specDetermineRole (p : Payload) : String :=
  if msgSource p = some "user" ∨ msgType p = some "user_transcript" then "user"
  else if msgSource p = some "ai" ∨ msgType p = some "agent_response" then "agent"
  else if msgRole p = some "user" then "user"
  else if msgRole p = some "assistant" ∨ msgRole p = some "agent" then "agent"
  else "agent"

/-- Spec text, content extraction: the first field in the given order
that is a non-empty string. -/
def specFirstNonEmptyString : List JField → Option String
  | [] => none
  | f :: rest =>
    match f with
    | .str s => if s ≠ "" then some s else specFirstNonEmptyString rest
    | _ => specFirstNonEmptyString rest

/-- Spec text, content extraction order: field `message`, then `text`,
then `content`, then `transcript`, then the payload itself if it is a
string; otherwise null. -/
def specExtractContent : Payload → Option String
  | .obj m => specFirstNonEmptyString [m.message, m.text, m.content, m.transcript]
  | .str s => some s

/-! Concrete instances used by witness theorems. -/

/-- A freshly constructed 10-page store. -/
def stTen : StateManager := ⟨10, 1, []⟩

/-- A 10-page store currently on page 4. -/
def stFour : StateManager := ⟨10, 4, []⟩

/-- A 10-page store with three `pageChanged` listeners. -/
def stListeners : StateManager := ⟨10, 1, [("pageChanged", [1, 2, 3])]⟩

/-- Listener behaviour: nobody throws. -/
def behNone : Nat → Bool := fun _ => false

/-- Listener behaviour: callback 2 throws. -/
def behTwo : Nat → Bool := fun id => id == 2

/-- A user-sourced inbound message carrying `message = "hello"`. -/
def msgHello : VoiceMsg :=
  ⟨some "user", none, none, .str "hello", .absent, .absent, .absent, none, none⟩

/-- A 10-page store whose listener map was built by registering callback
7 twice for `pageChanged` on top of an existing callback 1. -/
def stDouble : StateManager :=
  ⟨10, 1,
   addListener (addListener [("pageChanged", [1])] "pageChanged" 7)
     "pageChanged" 7⟩

/-! Helper lemmas shared by the claim theorems. -/

theorem emitAll_eq (l : List Nat) (ev : ChangeEvent) (beh : Nat → Bool) :
    emitAll l ev beh = (l.map (fun id => (id, ev)), l.filter beh) := by
  induction l with
  | nil => rfl
  | cons id rest ih =>
    cases h : beh id <;> simp [emitAll, ih, List.filter_cons, h]

theorem emit_eq (st : StateManager) (ty : String) (ev : ChangeEvent)
    (beh : Nat → Bool) :
    st.emit ty ev beh =
      ((listenersFor st.listeners ty).map (fun id => (id, ev)),
       (listenersFor st.listeners ty).filter beh) := by
  unfold StateManager.emit listenersFor
  cases lookupL st.listeners ty <;> simp [emitAll_eq]

theorem setCurrentPage_rejected (st : StateManager) (n : Int) (beh : Nat → Bool)
    (h : n < 1 ∨ n > st.totalPages ∨ n = st.currentPage) :
    st.setCurrentPage (.int n) beh = ⟨false, st, [], [], []⟩ := by
  unfold StateManager.setCurrentPage
  rcases h with h | h | h
  · simp [h]
  · simp [h]
  · by_cases h1 : n < 1 ∨ n > st.totalPages <;> simp [h1, h]

theorem setCurrentPage_accepted (st : StateManager) (n : Int) (beh : Nat → Bool)
    (h1 : 1 ≤ n) (h2 : n ≤ st.totalPages) (h3 : n ≠ st.currentPage) :
    st.setCurrentPage (.int n) beh =
      ⟨true, { st with currentPage := n },
       [("pageChanged",
         { currentPage := n, previousPage := st.currentPage,
           totalPages := st.totalPages })],
       (listenersFor st.listeners "pageChanged").map
         (fun id => (id,
           { currentPage := n, previousPage := st.currentPage,
             totalPages := st.totalPages })),
       (listenersFor st.listeners "pageChanged").filter beh⟩ := by
  have hcond : ¬(n < 1 ∨ n > st.totalPages) := by omega
  unfold StateManager.setCurrentPage
  simp only [hcond, if_false, h3, if_neg, ite_false]
  rw [emit_eq]

theorem setCurrentPage_nonInt (st : StateManager) (beh : Nat → Bool) :
    st.setCurrentPage .nonInt beh = ⟨false, st, [], [], []⟩ := rfl

theorem setCurrentPage_cases (st : StateManager) (p : JSNum) (beh : Nat → Bool) :
    st.setCurrentPage p beh = ⟨false, st, [], [], []⟩ ∨
      ∃ n : Int, p = .int n ∧ 1 ≤ n ∧ n ≤ st.totalPages ∧ n ≠ st.currentPage ∧
        st.setCurrentPage p beh =
          ⟨true, { st with currentPage := n },
           [("pageChanged",
             { currentPage := n, previousPage := st.currentPage,
               totalPages := st.totalPages })],
           (listenersFor st.listeners "pageChanged").map
             (fun id => (id,
               { currentPage := n, previousPage := st.currentPage,
                 totalPages := st.totalPages })),
           (listenersFor st.listeners "pageChanged").filter beh⟩ := by
  cases p with
  | nonInt => exact Or.inl (setCurrentPage_nonInt st beh)
  | int n =>
    by_cases hr : n < 1 ∨ n > st.totalPages ∨ n = st.currentPage
    · exact Or.inl (setCurrentPage_rejected st n beh hr)
    · push_neg at hr
      obtain ⟨ha, hb, hc⟩ := hr
      exact Or.inr ⟨n, rfl, by omega, by omega,
        hc, setCurrentPage_accepted st n beh (by omega) (by omega) hc⟩

theorem addToSet_idem (s : List Nat) (id : Nat) :
    addToSet (addToSet s id) id = addToSet s id := by
  unfold addToSet
  by_cases h : id ∈ s <;> simp [h]

theorem addToSet_mem (s : List Nat) (id : Nat) : id ∈ addToSet s id := by
  unfold addToSet
  by_cases h : id ∈ s <;> simp [h]

theorem addToSet_nodup (s : List Nat) (id : Nat) (h : s.Nodup) :
    (addToSet s id).Nodup := by
  unfold addToSet
  by_cases hm : id ∈ s <;> simp [hm, h, List.nodup_append]

theorem addListener_idem (L : Listeners) (ty : String) (id : Nat) :
    addListener (addListener L ty id) ty id = addListener L ty id := by
  induction L with
  | nil => simp [addListener, addToSet]
  | cons kv rest ih =>
    obtain ⟨k, v⟩ := kv
    by_cases h : k = ty
    · simp [addListener, h, addToSet_idem]
    · simp [addListener, h, ih]

theorem listenersFor_addListener (L : Listeners) (ty : String) (id : Nat) :
    listenersFor (addListener L ty id) ty = addToSet (listenersFor L ty) id := by
  induction L with
  | nil => simp [addListener, listenersFor, lookupL, addToSet]
  | cons kv rest ih =>
    obtain ⟨k, v⟩ := kv
    by_cases h : k = ty
    · simp [addListener, h, listenersFor, lookupL]
    · simp [addListener, h, listenersFor, lookupL] at ih ⊢
      exact ih

theorem reachable_inv (st : StateManager) (h : Reachable st) :
    1 ≤ st.currentPage ∧ st.currentPage ≤ st.totalPages := by
  induction h with
  | init tp st hmk =>
    unfold StateManager.make at hmk
    split at hmk
    · exact absurd hmk (by simp)
    · rename_i hcond
      injection hmk with h
      subst h
      push_neg at hcond
      exact ⟨by simp, by simp; omega⟩
  | step st p beh hr ih =>
    rcases setCurrentPage_cases st p beh with h | ⟨n, hp, h1, h2, h3, h⟩
    · rw [h]; exact ih
    · rw [h]; exact ⟨h1, h2⟩
  | addL st ty c hr ih => simpa using ih
  | removeL st ty c hr ih => simpa using ih

/-- C1: for every integer `n` and every store state, `setCurrentPage n`
returns true iff `1 ≤ n ≤ totalPages` and `n ≠ currentPage`; a
non-integer argument returns false; and every false return leaves
`currentPage` and `totalPages` unchanged. -/
theorem setCurrentPage_success_iff (st : StateManager) (n : Int)
    (beh : Nat → Bool) :
    ((st.setCurrentPage (.int n) beh).ok = true ↔
      1 ≤ n ∧ n ≤ st.totalPages ∧ n ≠ st.currentPage) ∧
    (st.setCurrentPage .nonInt beh).ok = false ∧
    ∀ p : JSNum, (st.setCurrentPage p beh).ok = false →
      (st.setCurrentPage p beh).st.currentPage = st.currentPage ∧
      (st.setCurrentPage p beh).st.totalPages = st.totalPages := by
  refine ⟨?_, rfl, ?_⟩
  · by_cases hc : 1 ≤ n ∧ n ≤ st.totalPages ∧ n ≠ st.currentPage
    · obtain ⟨a, b, c⟩ := hc
      rw [setCurrentPage_accepted st n beh a b c]
      exact iff_of_true rfl ⟨a, b, c⟩
    · have hr : n < 1 ∨ n > st.totalPages ∨ n = st.currentPage := by
        by_contra hno
        push_neg at hno
        exact hc ⟨by omega, by omega, hno.2.2⟩
      rw [setCurrentPage_rejected st n beh hr]
      exact iff_of_false (by simp) hc
  · intro p hok
    rcases setCurrentPage_cases st p beh with h | ⟨m, hp, h1, h2, h3, h⟩
    · rw [h]; exact ⟨rfl, rfl⟩
    · rw [h] at hok; simp at hok

/-- Witness for C1: on a fresh 10-page store, the success condition for
page 5, and state preservation after the rejected call with page 11. -/
theorem setCurrentPage_success_iff_witness :
    ((stTen.setCurrentPage (.int 5) behNone).ok = true ↔
      1 ≤ (5 : Int) ∧ (5 : Int) ≤ stTen.totalPages ∧
        (5 : Int) ≠ stTen.currentPage) ∧
    ((stTen.setCurrentPage (.int 11) behNone).st.currentPage =
        stTen.currentPage ∧
      (stTen.setCurrentPage (.int 11) behNone).st.totalPages =
        stTen.totalPages) :=
  ⟨(setCurrentPage_success_iff stTen 5 behNone).1,
   (setCurrentPage_success_iff stTen 5 behNone).2.2 (.int 11) (by decide)⟩

/-- C2: an accepted `setCurrentPage n` makes exactly one `pageChanged`
emission, whose payload carries the new page, the previous page, and the
total; the store already holds the new page when listeners run (every
invocation sees that payload); a rejected or no-op call emits nothing. -/
theorem setCurrentPage_emits_exactly_once (st : StateManager) (n : Int)
    (beh : Nat → Bool) :
    ((st.setCurrentPage (.int n) beh).ok = true →
      (st.setCurrentPage (.int n) beh).emitted =
        [("pageChanged",
          { currentPage := n, previousPage := st.currentPage,
            totalPages := st.totalPages })] ∧
      (st.setCurrentPage (.int n) beh).st.currentPage = n ∧
      ∀ q ∈ (st.setCurrentPage (.int n) beh).invocations,
        q.2 = { currentPage := n, previousPage := st.currentPage,
                totalPages := st.totalPages }) ∧
    ∀ p : JSNum, (st.setCurrentPage p beh).ok = false →
      (st.setCurrentPage p beh).emitted = [] := by
  constructor
  · intro hok
    rcases setCurrentPage_cases st (.int n) beh with h | ⟨m, hp, h1, h2, h3, h⟩
    · rw [h] at hok; simp at hok
    · injection hp with hm
      subst hm
      rw [h]
      refine ⟨rfl, rfl, ?_⟩
      intro q hq
      simp only [List.mem_map] at hq
      obtain ⟨id, _, rfl⟩ := hq
      rfl
  · intro p hok
    rcases setCurrentPage_cases st p beh with h | ⟨m, hp, h1, h2, h3, h⟩
    · rw [h]
    · rw [h] at hok; simp at hok

/-- Witness for C2: the accepted jump 1 → 5 on a fresh 10-page store
emits the single event, and the no-op call to page 1 emits nothing. -/
theorem setCurrentPage_emits_exactly_once_witness :
    (stTen.setCurrentPage (.int 5) behNone).emitted =
      [("pageChanged",
        { currentPage := 5, previousPage := stTen.currentPage,
          totalPages := stTen.totalPages })] ∧
    (stTen.setCurrentPage (.int 5) behNone).st.currentPage = 5 ∧
    (stTen.setCurrentPage (.int 1) behNone).emitted = [] :=
  ⟨((setCurrentPage_emits_exactly_once stTen 5 behNone).1 (by decide)).1,
   ((setCurrentPage_emits_exactly_once stTen 5 behNone).1 (by decide)).2.1,
   (setCurrentPage_emits_exactly_once stTen 5 behNone).2 (.int 1) (by decide)⟩

/-- C3: the constructor succeeds exactly when `1 ≤ totalPages`; every
store state reachable from construction through the public mutators
satisfies `1 ≤ currentPage ≤ totalPages`; and no `setCurrentPage` call
ever changes `totalPages`. -/
theorem pageState_invariant (tp : Int) (st : StateManager) (p : JSNum)
    (beh : Nat → Bool) (h : Reachable st) :
    ((StateManager.make tp).isSome = true ↔ 1 ≤ tp) ∧
    (1 ≤ st.currentPage ∧ st.currentPage ≤ st.totalPages) ∧
    (st.setCurrentPage p beh).st.totalPages = st.totalPages := by
  refine ⟨?_, reachable_inv st h, ?_⟩
  · unfold StateManager.make
    split
    · rename_i hcond
      exact iff_of_false (by simp) (by omega)
    · rename_i hcond
      push_neg at hcond
      exact iff_of_true (by simp) (by omega)
  · rcases setCurrentPage_cases st p beh with hh | ⟨m, hp, h1, h2, h3, hh⟩
    · rw [hh]
    · rw [hh]

/-- Witness for C3: the fresh 10-page store is reachable and satisfies
the invariant; `setCurrentPage 5` keeps `totalPages`. -/
theorem pageState_invariant_witness :
    ((StateManager.make 10).isSome = true ↔ 1 ≤ (10 : Int)) ∧
    (1 ≤ stTen.currentPage ∧ stTen.currentPage ≤ stTen.totalPages) ∧
    (stTen.setCurrentPage (.int 5) behNone).st.totalPages = stTen.totalPages :=
  pageState_invariant 10 stTen (.int 5) behNone
    (Reachable.init 10 stTen (by decide))

/-- C7: during an accepted page change, every registered `pageChanged`
listener is invoked in order with the same event — a throwing listener
is caught and logged without stopping the remaining listeners — and the
call still returns true with the new page retained. -/
theorem setCurrentPage_listener_isolation (st : StateManager) (n : Int)
    (beh : Nat → Bool) (h1 : 1 ≤ n) (h2 : n ≤ st.totalPages)
    (h3 : n ≠ st.currentPage) :
    (st.setCurrentPage (.int n) beh).ok = true ∧
    (st.setCurrentPage (.int n) beh).st.currentPage = n ∧
    (st.setCurrentPage (.int n) beh).invocations =
      (listenersFor st.listeners "pageChanged").map
        (fun id => (id,
          { currentPage := n, previousPage := st.currentPage,
            totalPages := st.totalPages })) ∧
    (st.setCurrentPage (.int n) beh).logged =
      (listenersFor st.listeners "pageChanged").filter beh := by
  rw [setCurrentPage_accepted st n beh h1 h2 h3]
  exact ⟨rfl, rfl, rfl, rfl⟩

/-- Witness for C7: three listeners, the second of which throws; all
three are invoked, the thrower is logged, and the change sticks. -/
theorem setCurrentPage_listener_isolation_witness :
    (stListeners.setCurrentPage (.int 5) behTwo).ok = true ∧
    (stListeners.setCurrentPage (.int 5) behTwo).st.currentPage = 5 ∧
    (stListeners.setCurrentPage (.int 5) behTwo).invocations =
      (listenersFor stListeners.listeners "pageChanged").map
        (fun id => (id,
          { currentPage := 5, previousPage := stListeners.currentPage,
            totalPages := stListeners.totalPages })) ∧
    (stListeners.setCurrentPage (.int 5) behTwo).logged =
      (listenersFor stListeners.listeners "pageChanged").filter behTwo :=
  setCurrentPage_listener_isolation stListeners 5 behTwo (by decide)
    (by decide) (by decide)

theorem map_fst_pair (l : List Nat) (ev : ChangeEvent) :
    ((l.map fun x => (x, ev)).map Prod.fst) = l := by
  induction l with
  | nil => rfl
  | cons x rest ih => simp [ih]

theorem clientGoToPage_invalid (st : StateManager) (input : ToolInput)
    (beh : Nat → Bool)
    (h : jsParseInt (unwrapParam input) = none ∨
      ∃ p, jsParseInt (unwrapParam input) = some p ∧
        (p < 1 ∨ p > st.totalPages)) :
    clientGoToPage st input beh =
      (⟨false,
        "Invalid page number. Must be between 1 and " ++ toString st.totalPages,
        st.currentPage, st.totalPages⟩, st, []) := by
  rcases h with h | ⟨p, hp, hr⟩
  · simp only [clientGoToPage, h]
  · simp only [clientGoToPage, hp]
    rw [if_pos hr]

/-- C4: a non-numeric or out-of-range `goToPage` argument — bare or
wrapped in an object — yields a failure whose message starts with
"Invalid page number" and leaves the store untouched; and on a 10-page
deck not currently on page 3, `goToPage({pageNumber: "3"})` returns the
exact success result. -/
theorem clientGoToPage_validation (st : StateManager) (input : ToolInput)
    (beh : Nat → Bool) :
    ((jsParseInt (unwrapParam input) = none ∨
      ∃ p, jsParseInt (unwrapParam input) = some p ∧
        (p < 1 ∨ p > st.totalPages)) →
      (clientGoToPage st input beh).1.success = false ∧
      (∃ rest, (clientGoToPage st input beh).1.message =
        "Invalid page number" ++ rest) ∧
      (clientGoToPage st input beh).2.1 = st) ∧
    (st.totalPages = 10 → st.currentPage ≠ 3 →
      (clientGoToPage st (.obj (.intStr 3)) beh).1 =
        ⟨true, "Jumped to page 3 of 10", 3, 10⟩) := by
  constructor
  · intro h
    rw [clientGoToPage_invalid st input beh h]
    refine ⟨rfl, ⟨". Must be between 1 and " ++ toString st.totalPages, ?_⟩, rfl⟩
    rw [← String.append_assoc]
    congr 1
  · intro htp hcp
    have hacc := setCurrentPage_accepted st 3 beh (by norm_num)
      (by rw [htp]; norm_num) (Ne.symm hcp)
    simp only [clientGoToPage, navGoToPage, unwrapParam, jsParseInt, hacc, htp]
    norm_num
    decide

/-- Witness for C4: both the invalid branch (non-numeric argument) and
the success scenario on the fresh 10-page store. -/
theorem clientGoToPage_validation_witness :
    ((clientGoToPage stTen (.bare .nonNumeric) behNone).1.success = false ∧
      (∃ rest, (clientGoToPage stTen (.bare .nonNumeric) behNone).1.message =
        "Invalid page number" ++ rest) ∧
      (clientGoToPage stTen (.bare .nonNumeric) behNone).2.1 = stTen) ∧
    (clientGoToPage stTen (.obj (.intStr 3)) behNone).1 =
      ⟨true, "Jumped to page 3 of 10", 3, 10⟩ :=
  ⟨(clientGoToPage_validation stTen (.bare .nonNumeric) behNone).1
      (Or.inl (by decide)),
   (clientGoToPage_validation stTen (.obj (.intStr 3)) behNone).2
      (by decide) (by decide)⟩

/-- C9: calling `goToPage` with the in-range current page is reported as
a failure ("Failed to navigate to page p"), with the unchanged current
page and total in the result, no state change, and no `pageChanged`
emission. -/
theorem clientGoToPage_inrange_noop (st : StateManager) (input : ToolInput)
    (p : Int) (beh : Nat → Bool)
    (hp : jsParseInt (unwrapParam input) = some p)
    (h1 : 1 ≤ p) (h2 : p ≤ st.totalPages) (hc : st.currentPage = p) :
    clientGoToPage st input beh =
      (⟨false, "Failed to navigate to page " ++ toString p, p,
        st.totalPages⟩, st, []) := by
  have hrej := setCurrentPage_rejected st p beh (Or.inr (Or.inr hc.symm))
  simp only [clientGoToPage, navGoToPage, hp, hrej]
  rw [if_neg (by omega)]
  simp [hc]

/-- Witness for C9: on a 10-page store at page 4, `goToPage(4)` fails
with the exact message and no state change. -/
theorem clientGoToPage_inrange_noop_witness :
    clientGoToPage stFour (.bare (.int 4)) behNone =
      (⟨false, "Failed to navigate to page " ++ toString (4 : Int), 4,
        stFour.totalPages⟩, stFour, []) :=
  clientGoToPage_inrange_noop stFour (.bare (.int 4)) 4 behNone (by decide)
    (by decide) (by decide) (by decide)

/-- C10: registering the same callback twice for the same event type
leaves the listener map unchanged, so an accepted page change invokes
that callback exactly once. -/
theorem addEventListener_idempotent (L : Listeners) (ty : String) (c : Nat)
    (st : StateManager) (n : Int) (beh : Nat → Bool)
    (hdup : (listenersFor L "pageChanged").Nodup)
    (hst : st.listeners =
      addListener (addListener L "pageChanged" c) "pageChanged" c)
    (h1 : 1 ≤ n) (h2 : n ≤ st.totalPages) (h3 : n ≠ st.currentPage) :
    addListener (addListener L ty c) ty c = addListener L ty c ∧
    ((st.setCurrentPage (.int n) beh).invocations.map Prod.fst).count c = 1 := by
  refine ⟨addListener_idem L ty c, ?_⟩
  rw [setCurrentPage_accepted st n beh h1 h2 h3]
  show (((listenersFor st.listeners "pageChanged").map fun x =>
      (x, ChangeEvent.mk n st.currentPage st.totalPages)).map
        Prod.fst).count c = 1
  rw [map_fst_pair, hst, addListener_idem, listenersFor_addListener]
  exact List.count_eq_one_of_mem (addToSet_nodup _ _ hdup) (addToSet_mem _ _)

/-- Witness for C10: callback 7 registered twice on top of callback 1;
the second registration is a no-op and an accepted change to page 5
invokes 7 exactly once. -/
theorem addEventListener_idempotent_witness :
    addListener (addListener [("pageChanged", [1])] "pageChanged" 7)
        "pageChanged" 7 =
      addListener [("pageChanged", [1])] "pageChanged" 7 ∧
    ((stDouble.setCurrentPage (.int 5) behNone).invocations.map
        Prod.fst).count 7 = 1 :=
  addEventListener_idempotent [("pageChanged", [1])] "pageChanged" 7 stDouble
    5 behNone (by decide) rfl (by decide) (by decide) (by decide)

/-- C5: the role assigned to an inbound message follows the spec's
first-match-wins cascade, defaulting to agent for any other shape. -/
theorem determineRole_matches_spec (p : Payload) :
    determineRole p = specDetermineRole p := by
  cases p with
  | str s => rfl
  | obj m => rfl

theorem fieldContent_ne_empty {f : JField} {c : String}
    (h : fieldContent f = some c) : c ≠ "" := by
  cases f with
  | str s =>
    by_cases hs : s = "" <;> simp [fieldContent, hs] at h
    rw [← h]
    exact hs
  | nonStr t => exact absurd h (by simp [fieldContent])
  | absent => exact absurd h (by simp [fieldContent])

theorem specFirstNonEmptyString_cons (f : JField) (rest : List JField) :
    specFirstNonEmptyString (f :: rest) =
      (match fieldContent f with
       | some s => some s
       | none => specFirstNonEmptyString rest) := by
  cases f with
  | str s =>
    by_cases h : s = "" <;> simp [specFirstNonEmptyString, fieldContent, h]
  | nonStr t => simp [specFirstNonEmptyString, fieldContent]
  | absent => simp [specFirstNonEmptyString, fieldContent]

theorem extractContent_eq_spec (msg : Payload) :
    extractContent msg = specExtractContent msg := by
  cases msg with
  | str s => rfl
  | obj m =>
    show _ = specFirstNonEmptyString [m.message, m.text, m.content, m.transcript]
    simp only [specFirstNonEmptyString_cons]
    rfl

theorem extractContent_ne_empty {msg : Payload} {c : String}
    (htr : payloadTruthy msg = true) (h : extractContent msg = some c) :
    c ≠ "" := by
  cases msg with
  | str s =>
    simp only [payloadTruthy, ne_eq, decide_eq_true_eq] at htr
    simp only [extractContent, Option.some.injEq] at h
    rw [← h]
    exact htr
  | obj m =>
    simp only [extractContent] at h
    split at h
    · rename_i s hs
      simp only [Option.some.injEq] at h
      subst h
      exact fieldContent_ne_empty hs
    · split at h
      · rename_i s hs
        simp only [Option.some.injEq] at h
        subst h
        exact fieldContent_ne_empty hs
      · split at h
        · rename_i s hs
          simp only [Option.some.injEq] at h
          subst h
          exact fieldContent_ne_empty hs
        · split at h
          · rename_i s hs
            simp only [Option.some.injEq] at h
            subst h
            exact fieldContent_ne_empty hs
          · exact absurd h (by simp)

/-- C6 (amended): content extraction follows the spec's first-match
order, including returning a bare string payload as-is; a message whose
payload is falsy (absent or the empty string) or whose extraction is
null is dropped with no history or display change; a non-null extraction
from a truthy payload appends exactly one entry to both. -/
theorem handleVoiceMessage_extraction_spec (tm : TMState) (msg : Payload)
    (now : Nat) :
    extractContent msg = specExtractContent msg ∧
    handleVoiceMessage tm none now = tm ∧
    (payloadTruthy msg = false → handleVoiceMessage tm (some msg) now = tm) ∧
    (payloadTruthy msg = true → extractContent msg = none →
      handleVoiceMessage tm (some msg) now = tm) ∧
    ∀ c, payloadTruthy msg = true → extractContent msg = some c →
      handleVoiceMessage tm (some msg) now =
        { history := tm.history ++
            [⟨determineRole msg, c, extractTimestamp msg now⟩]
          display := tm.display ++
            [⟨determineRole msg, c, extractTimestamp msg now⟩] } := by
  refine ⟨extractContent_eq_spec msg, rfl, ?_, ?_, ?_⟩
  · intro h
    simp [handleVoiceMessage, h]
  · intro htr hnone
    simp [handleVoiceMessage, htr, hnone]
  · intro c htr hc
    have hne := extractContent_ne_empty htr hc
    simp [handleVoiceMessage, htr, hc, hne]

/-- Witness for C6 (amended): the user message `{source:"user",
message:"hello"}` appends exactly one user entry to history and
display. -/
theorem handleVoiceMessage_extraction_spec_witness :
    handleVoiceMessage ⟨[], []⟩ (some (.obj msgHello)) 7 =
      { history := ([] : List Entry) ++
          [⟨determineRole (.obj msgHello), "hello",
            extractTimestamp (.obj msgHello) 7⟩]
        display := ([] : List Entry) ++
          [⟨determineRole (.obj msgHello), "hello",
            extractTimestamp (.obj msgHello) 7⟩] } :=
  (handleVoiceMessage_extraction_spec ⟨[], []⟩ (.obj msgHello) 7).2.2.2.2
    "hello" (by decide) (by decide)

/-- C6 counterexample: the empty-string payload has non-null extracted
content `""`, yet `handleVoiceMessage` appends nothing to history or
display — the claim's "a non-null extraction appends exactly one entry"
fails on this input. -/
theorem handleVoiceMessage_empty_payload_counterexample :
    extractContent (.str "") = some "" ∧
    handleVoiceMessage ⟨[], []⟩ (some (.str "")) 0 = ⟨[], []⟩ := by decide

/-- C8: a non-string, empty, or whitespace-only text message is a
complete no-op — no history entry, no display update, no delivery —
whether or not a session is bound. -/
theorem sendTextMessage_blank_noop (tm : TMState) (conv : Option Conversation)
    (t : JSText) (now : Nat)
    (h : t = .nonString ∨ ∃ s, t = .str s ∧ jsTrim s = "") :
    sendTextMessage tm conv t now = (tm, []) := by
  rcases h with h | ⟨s, hs, ht⟩
  · subst h; rfl
  · subst hs
    unfold sendTextMessage
    by_cases h0 : s = ""
    · simp [h0]
    · simp [h0, ht]

/-- Witness for C8: a whitespace-only message with no bound session
changes nothing. -/
theorem sendTextMessage_blank_noop_witness :
    sendTextMessage ⟨[], []⟩ none (.str "   ") 0 = (⟨[], []⟩, []) :=
  sendTextMessage_blank_noop ⟨[], []⟩ none (.str "   ") 0
    (Or.inr ⟨"   ", rfl, by decide⟩)

end LivePresenter
